import Mathlib

/-!
Shallow embedding of the bako-safe-api authentication / workspace-permission
core: the `AuthController` (sign-in, sign-out, switch-workspace), the
`WorkspaceController` (permission updates and membership), and the
`authPermissionMiddleware` authorization gate, together with the session-store
access pattern they drive.

Conventions of the embedding:
* Time is an integer count of minutes (`date-fns` `addMinutes` adds whole
  minutes to a timestamp, which is all the controllers ever do with dates).
* `JSON.stringify` over a record with a fixed key set, produced by rest
  destructuring, is injective in the field values, so a serialized payload is
  represented by the record of fields it serializes; equality of records
  stands for byte equality of the canonical serializations.
* JavaScript `throw` / `try-catch` is represented by `Except`; a `TypeError`
  raised by dereferencing `null`/`undefined` is a distinguished untyped error
  constructor, kept apart from the typed `GeneralError` family.
* Databases reached through services are explicit parameters: a list of
  workspaces, a list of users, and a list of session tokens.
-/

namespace BakoSafe

/-- Role enumeration from `@src/models/Workspace` (`PermissionRoles`). -/
inductive PermissionRoles where
  | OWNER
  | ADMIN
  | MANAGER
  | SIGNER
  | VIEWER
  deriving Repr, DecidableEq

/-- A member's permissions-map entry: for each role, a list of capability
strings (a capability list containing the wildcard grants everything). -/
abbrev PermissionEntry := List (PermissionRoles × List String)

/-- User record: the identity fields the controllers read. -/
structure User where
  id : String
  address : String
  avatar : String
  deriving Repr, DecidableEq

/-- Association-list lookup, the reading of a JavaScript object field
`obj[key]`: `none` models `undefined`. -/
def plookup {α : Type} (m : List (String × α)) (k : String) : Option α :=
  (m.find? (fun e => e.1 = k)).map (fun e => e.2)

/-- `obj[key] = v`: overwrite the entry if present, append it otherwise. -/
def pinsert {α : Type} (m : List (String × α)) (k : String) (v : α) :
    List (String × α) :=
  if (m.find? (fun e => e.1 = k)).isSome then
    m.map (fun e => if e.1 = k then (k, v) else e)
  else
    m ++ [(k, v)]

/-- `delete obj[key]`: remove the entry. -/
def perase {α : Type} (m : List (String × α)) (k : String) :
    List (String × α) :=
  m.filter (fun e => ¬ e.1 = k)

/-- Workspace record (`@src/models/Workspace`): tenancy boundary with an
owner, a member list, and a permissions map keyed by user id. -/
structure Workspace where
  id : String
  name : String
  avatar : String
  single : Bool
  owner : User
  members : List User
  permissions : List (String × PermissionEntry)
  deriving Repr, DecidableEq

/-- Modelled from the spec: `defaultPermissions` is imported from
`@src/models/Workspace`, which is not among the provided sources. The spec
fixes only the shape of the table: OWNER's and ADMIN's sets contain the
wildcard, MANAGER a fixed subset, VIEWER a read-only subset that never
contains the wildcard; the exact capability strings are deployment-defined. -/
def defaultPermissions : PermissionRoles → PermissionEntry
  | .OWNER => [(.OWNER, ["*"])]
  | .ADMIN => [(.ADMIN, ["*"])]
  | .MANAGER => [(.MANAGER, ["vault:view", "vault:create", "member:view"])]
  | .SIGNER => [(.SIGNER, ["vault:sign"])]
  | .VIEWER => [(.VIEWER, ["vault:view"])]

/-- Role lookup inside a member's permissions entry. -/
def roleCaps (entry : PermissionEntry) (p : PermissionRoles) : List String :=
  ((entry.find? (fun e => e.1 = p)).map (fun e => e.2)).getD []

/-- Modelled from the spec: `validatePermissionGeneral` lives in
`src/utils/permissionValidate`, which is not among the provided sources. The
spec describes the evaluation as: the workspace owner always passes, and
otherwise the caller's permissions-map entry is consulted, a role capability
list containing the wildcard granting the action (the commented debug block
in `authPermissionMiddleware` inspects exactly
`workspace.permissions[user.id][p]` for the wildcard). -/
def validatePermissionGeneral (workspace : Workspace) (userId : String)
    (permission : List PermissionRoles) : Bool :=
  userId = workspace.owner.id ||
    (match plookup workspace.permissions userId with
     | some entry => permission.any (fun p => (roleCaps entry p).contains "*")
     | none => false)

/-- Outcome of the authorization gate for one request. -/
inductive GateResult where
  | admitted
  | missingCredentials
  | missingPermission
  deriving Repr, DecidableEq

/-- `authPermissionMiddleware` from `src/modules/user/types.ts` (the auth
middleware file): given the endpoint's declared required roles (possibly
absent or empty) and the `user` / `workspace` attached to the request context
by `authMiddleware`, admit or reject. Mirrors the source order exactly:
1. absent or empty `permission` → `next()` at once;
2. missing `user` or `workspace` in context → `MISSING_CREDENTIALS`;
3. no permissions-map entry for the user → `MISSING_PERMISSION`;
4. `validatePermissionGeneral` decides; failure → `MISSING_PERMISSION`. -/
def authPermissionMiddleware (permission : Option (List PermissionRoles))
    (user : Option User) (workspace : Option Workspace) : GateResult :=
  match permission with
  | none => .admitted
  | some ps =>
    if ps.length = 0 then .admitted
    else
      match user, workspace with
      | some u, some w =>
        if (plookup w.permissions u.id).isNone then .missingPermission
        else if validatePermissionGeneral w u.id ps then .admitted
        else .missingPermission
      | _, _ => .missingCredentials

/-! ## Session store and sign-in -/

/-- Sign-in request body (`ISignInRequest`): `address`, `user_id`, `encoder`,
`provider`, `createdAt` (the client-asserted signing time, minutes), the
`signature`, and an optional `workspace_id`. -/
structure SignInBody where
  address : String
  user_id : String
  encoder : String
  provider : String
  createdAt : Int
  signature : String
  workspace_id : Option String
  deriving Repr, DecidableEq

/-- The record produced by
`const { signature, workspace_id, ...payloadWithoutSignature } = req.body`:
every body field except `signature` and `workspace_id`. Its canonical
serialization (`JSON.stringify`) is the message the signature is verified
over, so equality of these records stands for byte equality of messages. -/
structure SignInMessage where
  address : String
  user_id : String
  encoder : String
  provider : String
  createdAt : Int
  deriving Repr, DecidableEq

/-- The rest-destructuring in `AuthController.signIn`, line
`const { signature, workspace_id, ...payloadWithoutSignature } = req.body`. -/
def payloadWithoutSignature (b : SignInBody) : SignInMessage :=
  { address := b.address
    user_id := b.user_id
    encoder := b.encoder
    provider := b.provider
    createdAt := b.createdAt }

/-- The record the spec's words describe as the signed message: the request
payload excluding only the signature field itself, so `workspace_id` is kept.
Written from the spec for comparison against `payloadWithoutSignature`. -/
structure SpecSignInMessage where
  address : String
  user_id : String
  encoder : String
  provider : String
  createdAt : Int
  workspace_id : Option String
  deriving Repr, DecidableEq

/-- Spec-side signed message: every submitted body field except `signature`. -/
def specSignedMessage (b : SignInBody) : SpecSignInMessage :=
  { address := b.address
    user_id := b.user_id
    encoder := b.encoder
    provider := b.provider
    createdAt := b.createdAt
    workspace_id := b.workspace_id }

/-- Session token record (`UserToken`): the opaque token value (the sign-in
signature), the owning user, the active workspace (possibly undefined when
workspace resolution found nothing), expiry, and the signed payload. -/
structure UserToken where
  token : String
  user : User
  workspace : Option Workspace
  expired_at : Int
  payload : SignInMessage
  deriving Repr, DecidableEq

/-- The session store: the table of issued tokens. -/
abbrev TokenStore := List UserToken

/-- Modelled from the spec: `AuthService.findToken({ userId })` (the auth
service is not among the provided sources; the spec's SessionStore contract
is `findByUser(userId) -> Session | absent` with equality semantics). -/
def findToken (userId : String) (st : TokenStore) : Option UserToken :=
  st.find? (fun t => t.user.id = userId)

/-- Modelled from the spec: `AuthService.signOut(user)` invalidates the
user's live session (SessionStore `invalidate`); subsequent lookups for the
removed tokens fail. -/
def signOutService (user : User) (st : TokenStore) : TokenStore :=
  st.filter (fun t => ¬ t.user.id = user.id)

/-- Modelled from the spec: `TokenUtils.recoverToken` /
`recoverFromCredential` retrieves the session whose token equals the
presented credential, absent when unknown (`findByToken`). -/
def recoverToken (signature : String) (st : TokenStore) : Option UserToken :=
  st.find? (fun t => t.token = signature)

/-- Modelled from the spec: `token.save()` persists the (possibly mutated)
session record, replacing the stored row with the same token value. -/
def saveToken (t : UserToken) (st : TokenStore) : TokenStore :=
  st.map (fun x => if x.token = t.token then t else x)

/-- `WorkspaceService().filter(...).list()` for the two filters the auth
controller uses: by workspace id, or by owner id plus the `single` flag. -/
def workspacesById (db : List Workspace) (id : String) : List Workspace :=
  db.filter (fun w => w.id = id)

/-- Filter `{ owner: user_id, single: true }`. -/
def workspacesByOwnerSingle (db : List Workspace) (ownerId : String) :
    List Workspace :=
  db.filter (fun w => w.owner.id = ownerId && w.single)

/-- Modelled from the spec: `UserService.findOne(id)` retrieves the user
record by id (users are keyed by id in persistence). -/
def findOneUser (users : List User) (id : String) : Option User :=
  users.find? (fun u => u.id = id)

/-- Typed and untyped failures surfaced by the auth endpoints. `invalid`
covers `Web3Utils.verifySignature` throwing (InvalidSignature /
MalformedSignature); `userNotFound` a failed `userService.findOne`;
`nullDerefToken` and `nullDerefWorkspace` are JavaScript `TypeError`s from
dereferencing an absent token or an absent active workspace — untyped
errors, not members of the `GeneralError` taxonomy. -/
inductive AuthError where
  | invalidSignature
  | userNotFound
  | workspaceNotFound
  | nullDerefToken
  | nullDerefWorkspace
  deriving Repr, DecidableEq

/-- `AuthController.signIn`, parameterized by the configuration value
`TOKEN_EXPIRATION_TIME` (absent environment variable → `none`, the source
applies `?? '15'`), by the signature verifier (`Web3Utils.verifySignature`
checks that `signature` over the serialized `payloadWithoutSignature` was
produced by `signerAddress`; the verifier itself is an external collaborator,
abstracted as a boolean function of message, signature, and address), and by
the persistence tables. Mirrors the source step for step:
1. destructure the body, dropping `signature` and `workspace_id`;
2. verify the signature over the remaining payload, signer `req.body.address`;
3. find an existing token for `user_id`; if present, sign its user out;
4. resolve the workspace: by `workspace_id` when given, else the caller's
   single workspace (`response[0]`, absent when the list is empty);
5. look the user up and issue the token with
   `expired_at = addMinutes(createdAt, Number(expiresIn))`.
Returns the issued token and the updated store. -/
def signIn (tokenExpirationTime : Option Int)
    (verify : SignInMessage → String → String → Bool)
    (users : List User) (workspaceDb : List Workspace)
    (body : SignInBody) (st : TokenStore) :
    Except AuthError (UserToken × TokenStore) :=
  let expiresIn := tokenExpirationTime.getD 15
  let message := payloadWithoutSignature body
  if ¬ verify message body.signature body.address then
    .error .invalidSignature
  else
    let st1 :=
      match findToken body.user_id st with
      | some existingToken => signOutService existingToken.user st
      | none => st
    let workspace :=
      (match body.workspace_id with
       | some wid => workspacesById workspaceDb wid
       | none => workspacesByOwnerSingle workspaceDb body.user_id).head?
    match findOneUser users body.user_id with
    | none => .error .userNotFound
    | some user =>
      let userToken : UserToken :=
        { token := body.signature
          user := user
          workspace := workspace
          expired_at := body.createdAt + expiresIn
          payload := message }
      .ok (userToken, userToken :: st1)

/-! ## Switch-workspace (`AuthController.updateWorkspace`) -/

/-- The formatted summary `updateWorkspace` returns: the session's active
workspace (id, name, avatar, the caller's permissions-map entry in it, the
`single` flag), the token value, and the user's avatar and address. -/
structure ChangeWorkspaceResult where
  workspaceId : String
  workspaceName : String
  workspaceAvatar : String
  workspacePermissions : Option PermissionEntry
  workspaceSingle : Bool
  token : String
  avatar : String
  address : String
  deriving Repr, DecidableEq

/-- `AuthController.updateWorkspace`: body carries the target workspace id
and the caller's user id. Mirrors the source:
1. load the workspace by id; absent → typed `NotFound`;
2. `isUserMember` — the caller appears in `workspace.members`;
   `hasPermission` — `!!workspace.permissions[user]`;
3. `findToken({ userId: user })`; the result is dereferenced without a
   null check, so an absent token surfaces as a `TypeError`
   (`nullDerefToken`), not a typed error;
4. only when `isUserMember || hasPermission` is the token's workspace
   reassigned; otherwise the token is saved unchanged and the response is
   built from the previously active workspace (dereferenced:
   `nullDerefWorkspace` when the session has none);
5. the (possibly unchanged) token is saved and a success response returned. -/
def updateWorkspace (workspaceDb : List Workspace) (st : TokenStore)
    (workspaceId : String) (userId : String) :
    Except AuthError (ChangeWorkspaceResult × TokenStore) :=
  match (workspacesById workspaceDb workspaceId).head? with
  | none => .error .workspaceNotFound
  | some workspace =>
    let isUserMember := (workspace.members.find? (fun m => m.id = userId)).isSome
    let hasPermission := (plookup workspace.permissions userId).isSome
    match findToken userId st with
    | none => .error .nullDerefToken
    | some token =>
      let token1 :=
        if isUserMember || hasPermission then
          { token with workspace := some workspace }
        else token
      let st1 := saveToken token1 st
      match token1.workspace with
      | none => .error .nullDerefWorkspace
      | some activeWs =>
        .ok
          ({ workspaceId := activeWs.id
             workspaceName := activeWs.name
             workspaceAvatar := activeWs.avatar
             workspacePermissions := plookup activeWs.permissions token1.user.id
             workspaceSingle := activeWs.single
             token := token1.token
             avatar := token1.user.avatar
             address := token1.user.address }, st1)

/-! ## Workspace controller (`WorkspaceController`) -/

/-- Failures of the workspace endpoints: the typed `Unauthorized` with title
`MISSING_PERMISSION` thrown when the target member is the owner, and the
untyped `TypeError` from `data[0]` being `undefined` when the workspace
lookup returns an empty list (the source's `if (!data)` guard never fires on
an empty array, so the absent-workspace case falls through to a property
access on `undefined`). -/
inductive WsError where
  | unauthorizedMissingPermission
  | nullDerefWorkspace
  deriving Repr, DecidableEq

/-- `WorkspaceController.updatePermissions`: load the workspace by id; if the
target `member` is the owner, throw `Unauthorized` ("Owner cannot change his
own permissions") before any mutation; otherwise overwrite the member's
permissions-map entry (`{ ...workspace.permissions, [member]: permissions }`)
and save. -/
def updatePermissions (workspaceDb : List Workspace) (id : String)
    (member : String) (permissions : PermissionEntry) :
    Except WsError Workspace :=
  match (workspacesById workspaceDb id).head? with
  | none => .error .nullDerefWorkspace
  | some workspace =>
    if workspace.owner.id = member then
      .error .unauthorizedMissingPermission
    else
      .ok { workspace with
              permissions := pinsert workspace.permissions member permissions }

/-- `WorkspaceController.removeMember`: load the workspace by id; if the
target `member` is the owner, throw `Unauthorized` ("Owner cannot be removed
from workspace") before any mutation; otherwise filter the member out of
`workspace.members`, `delete workspace.permissions[member]`, and save. -/
def removeMember (workspaceDb : List Workspace) (id : String)
    (member : String) : Except WsError Workspace :=
  match (workspacesById workspaceDb id).head? with
  | none => .error .nullDerefWorkspace
  | some workspace =>
    if workspace.owner.id = member then
      .error .unauthorizedMissingPermission
    else
      .ok { workspace with
              members := workspace.members.filter (fun m => ¬ m.id = member)
              permissions := perase workspace.permissions member }

/-- `WorkspaceController.addMember`, after the target user has been resolved
(by id for short identifiers, by address — creating the record when absent —
for long ones; the resolution only produces the `User` value used below):
load the workspace; when the resolved user is not already in
`workspace.members`, append them and set their permissions-map entry to
`defaultPermissions[PermissionRoles.VIEWER]`; save. An existing member is
left untouched. -/
def addMember (workspaceDb : List Workspace) (id : String)
    (resolvedMember : User) : Except WsError Workspace :=
  match (workspacesById workspaceDb id).head? with
  | none => .error .nullDerefWorkspace
  | some workspace =>
    if (workspace.members.find? (fun m => m.id = resolvedMember.id)).isSome then
      .ok workspace
    else
      .ok { workspace with
              members := workspace.members ++ [resolvedMember]
              permissions :=
                pinsert workspace.permissions resolvedMember.id
                  (defaultPermissions .VIEWER) }

/-! ## Concrete fixtures used by witnesses and counterexamples -/

/-- A workspace owner. -/
def ownerUser : User :=
  { id := "u-owner", address := "0xOwner", avatar := "av-owner" }

/-- An ordinary (non-owner) user. -/
def plainUser : User :=
  { id := "u-plain", address := "0xPlain", avatar := "av-plain" }

/-- A workspace whose permissions map is empty: not even the owner has an
entry keyed by their user id. -/
def wsNoEntries : Workspace :=
  { id := "w-1", name := "W1", avatar := "av-w1", single := false
    owner := ownerUser, members := [ownerUser], permissions := [] }

/-! ## C1 / C9 — the authorization gate -/

/-- C1 (counterexample): the gate does not admit the workspace owner
unconditionally. With a nonempty required role set and a permissions map
holding no entry keyed by the owner's user id, the owner's request is
rejected with `MISSING_PERMISSION`: the entry-presence check at the top of
`authPermissionMiddleware` fires before any owner consideration. -/
theorem gate_rejects_owner_without_entry :
    authPermissionMiddleware (some [.VIEWER]) (some ownerUser)
        (some wsNoEntries) = .missingPermission ∧
    authPermissionMiddleware (some [.VIEWER]) (some ownerUser)
        (some wsNoEntries) ≠ .admitted := by
  decide

/-- C1 (amended): whenever the declared required role set is nonempty and the
permissions map has no entry keyed by the caller's user id — the workspace
owner included — `authPermissionMiddleware` rejects with
`MISSING_PERMISSION`. The owner wildcard of `validatePermissionGeneral` is
only reachable once the owner holds a permissions-map entry. -/
theorem gate_requires_permissions_entry (ps : List PermissionRoles)
    (u : User) (w : Workspace) (hps : ps ≠ [])
    (hnone : plookup w.permissions u.id = none) :
    authPermissionMiddleware (some ps) (some u) (some w) =
      .missingPermission := by
  have hlen : ¬ ps.length = 0 := by
    simpa [List.length_eq_zero] using hps
  simp [authPermissionMiddleware, hlen, hnone]

/-- C1 (witness for the amended theorem), at the owner of a workspace with an
empty permissions map. -/
theorem gate_requires_permissions_entry_witness :
    authPermissionMiddleware (some [.VIEWER]) (some ownerUser)
        (some wsNoEntries) = .missingPermission :=
  gate_requires_permissions_entry [.VIEWER] ownerUser wsNoEntries
    (by decide) (by decide)

/-- C9 (counterexample): an endpoint declaring an empty required role set
admits a request with neither user nor workspace in context — the empty-set
short-circuit returns `next()` before the `MISSING_CREDENTIALS` check is ever
reached, so the gate does not reject such requests. -/
theorem gate_empty_set_skips_credentials_check :
    authPermissionMiddleware (some []) none none = .admitted ∧
    authPermissionMiddleware (some []) none none ≠ .missingCredentials := by
  decide

/-- C9 (amended): when the declared required role set is absent or empty,
`authPermissionMiddleware` admits the request unconditionally, without
examining whether user or workspace are present in the request context; the
`MISSING_CREDENTIALS` rejection applies only to nonempty required sets. -/
theorem gate_empty_set_admits_unconditionally (u : Option User)
    (w : Option Workspace) :
    authPermissionMiddleware none u w = .admitted ∧
    authPermissionMiddleware (some []) u w = .admitted := by
  exact ⟨rfl, rfl⟩

/-! ## Association-list lemmas -/

/-- Overwriting an existing key in place (`pinsert`'s map branch) then
reading the key yields the written value. -/
theorem plookup_overwrite {α : Type} (m : List (String × α)) (k : String)
    (v : α) (hmem : (m.find? (fun e => e.1 = k)).isSome = true) :
    plookup (m.map (fun e => if e.1 = k then (k, v) else e)) k = some v := by
  induction m with
  | nil => simp at hmem
  | cons e es ih =>
    by_cases he : e.1 = k
    · simp [plookup, he]
    · have hmem2 : (es.find? (fun e => e.1 = k)).isSome = true := by
        simpa [List.find?_cons_of_neg, he] using hmem
      have := ih hmem2
      simpa [plookup, he] using this

/-- Setting a key then reading it yields the written value. -/
theorem plookup_pinsert {α : Type} (m : List (String × α)) (k : String)
    (v : α) : plookup (pinsert m k v) k = some v := by
  by_cases hmem : (m.find? (fun e => e.1 = k)).isSome = true
  · simp only [pinsert, hmem, if_true]
    exact plookup_overwrite m k v hmem
  · have hnone : m.find? (fun e => e.1 = k) = none :=
      Option.not_isSome_iff_eq_none.mp (by simpa using hmem)
    simp [pinsert, hnone, plookup]

/-- Deleting a key then reading it yields nothing. -/
theorem plookup_perase {α : Type} (m : List (String × α)) (k : String) :
    plookup (perase m k) k = none := by
  simp only [plookup, perase, Option.map_eq_none']
  rw [List.find?_eq_none]
  intro e he
  have := (List.mem_filter.mp he).2
  simpa using this

/-- Searching by user id in a member list just filtered to exclude that id
finds nothing. -/
theorem find_id_on_removed_members (l : List User) (k : String) :
    (l.filter (fun m => ¬ m.id = k)).find? (fun m => m.id = k) = none := by
  rw [List.find?_eq_none]
  intro x hx
  have := (List.mem_filter.mp hx).2
  simpa using this

/-! ## C7 / C8 — workspace membership and permissions -/

/-- C7: whenever the target member of a permission update or of a member
removal is the workspace owner, both `updatePermissions` and `removeMember`
fail with the typed `Unauthorized` / `MISSING_PERMISSION` error. The guard
throws before either handler touches `workspace.members` or
`workspace.permissions` and no `workspace.save()` is reached, so the stored
members and permissions map are unchanged (the error branch carries no
updated workspace). -/
theorem owner_not_targetable (wdb : List Workspace) (id member : String)
    (perms : PermissionEntry) (w : Workspace)
    (hw : (workspacesById wdb id).head? = some w)
    (howner : w.owner.id = member) :
    updatePermissions wdb id member perms =
        .error .unauthorizedMissingPermission ∧
    removeMember wdb id member = .error .unauthorizedMissingPermission := by
  constructor
  · simp [updatePermissions, hw, howner]
  · simp [removeMember, hw, howner]

/-- C7 (witness): targeting the owner of a concrete workspace. -/
theorem owner_not_targetable_witness :
    updatePermissions [wsNoEntries] "w-1" "u-owner"
        (defaultPermissions .ADMIN) =
      .error .unauthorizedMissingPermission ∧
    removeMember [wsNoEntries] "w-1" "u-owner" =
      .error .unauthorizedMissingPermission :=
  owner_not_targetable [wsNoEntries] "w-1" "u-owner"
    (defaultPermissions .ADMIN) wsNoEntries (by decide) (by decide)

/-- C8: removing a non-owner member deletes both their membership and their
permissions-map entry, and re-adding the same user afterwards assigns the
VIEWER default permission set — not the entry they previously held
(`priorEntry` is arbitrary and does not reappear). -/
theorem remove_then_add_assigns_viewer_defaults
    (wdb wdb1 : List Workspace) (id id1 member : String)
    (w w1 : Workspace) (u : User) (priorEntry : PermissionEntry)
    (hw : (workspacesById wdb id).head? = some w)
    (howner : ¬ w.owner.id = member)
    (hprior : plookup w.permissions member = some priorEntry)
    (hrm : removeMember wdb id member = .ok w1)
    (hu : u.id = member)
    (hw1 : (workspacesById wdb1 id1).head? = some w1) :
    plookup w1.permissions member = none ∧
    w1.members.find? (fun m => m.id = member) = none ∧
    ∃ w2, addMember wdb1 id1 u = .ok w2 ∧
      plookup w2.permissions member =
        some (defaultPermissions .VIEWER) := by
  simp only [removeMember, hw, howner, if_false, Except.ok.injEq] at hrm
  have hperm1 : plookup w1.permissions member = none := by
    rw [← hrm]
    exact plookup_perase w.permissions member
  have hmem1 : w1.members.find? (fun m => m.id = member) = none := by
    rw [← hrm]
    exact find_id_on_removed_members w.members member
  refine ⟨hperm1, hmem1, ?_⟩
  have hfind : (w1.members.find? (fun m => m.id = u.id)).isSome = false := by
    rw [hu, hmem1]
    rfl
  refine ⟨{ w1 with
            members := w1.members ++ [u]
            permissions :=
              pinsert w1.permissions u.id (defaultPermissions .VIEWER) },
          ?_, ?_⟩
  · simp [addMember, hw1, hfind]
  · show plookup (pinsert w1.permissions u.id (defaultPermissions .VIEWER))
      member = some (defaultPermissions .VIEWER)
    rw [← hu]
    exact plookup_pinsert w1.permissions u.id (defaultPermissions .VIEWER)

/-- A non-owner member of `wsShared` holding a custom (non-VIEWER) entry. -/
def wsShared : Workspace :=
  { id := "w-2", name := "W2", avatar := "av-w2", single := false
    owner := ownerUser, members := [ownerUser, plainUser]
    permissions :=
      [("u-owner", defaultPermissions .OWNER), ("u-plain", [(.ADMIN, ["*"])])] }

/-- `wsShared` after `removeMember` has dropped `plainUser`. -/
def wsSharedAfterRemoval : Workspace :=
  { id := "w-2", name := "W2", avatar := "av-w2", single := false
    owner := ownerUser, members := [ownerUser]
    permissions := [("u-owner", defaultPermissions .OWNER)] }

/-- C8 (witness): removing `plainUser` (who held an ADMIN wildcard entry)
from `wsShared` and re-adding them yields the VIEWER defaults. -/
theorem remove_then_add_assigns_viewer_defaults_witness :
    plookup wsSharedAfterRemoval.permissions "u-plain" = none ∧
    wsSharedAfterRemoval.members.find? (fun m => m.id = "u-plain") = none ∧
    ∃ w2, addMember [wsSharedAfterRemoval] "w-2" plainUser = .ok w2 ∧
      plookup w2.permissions "u-plain" =
        some (defaultPermissions .VIEWER) :=
  remove_then_add_assigns_viewer_defaults [wsShared] [wsSharedAfterRemoval]
    "w-2" "w-2" "u-plain" wsShared wsSharedAfterRemoval plainUser
    [(.ADMIN, ["*"])] (by decide) (by decide) (by decide) (by rfl)
    (by decide) (by decide)

/-! ## C3 / C4 / C10 — switch-workspace -/

/-- Saving a session whose token value already occurs in the store makes the
credential recover exactly the saved session. -/
theorem recoverToken_saveToken (t t0 : UserToken) (st : TokenStore)
    (hmem : t0 ∈ st) (htok : t0.token = t.token) :
    recoverToken t.token (saveToken t st) = some t := by
  induction st with
  | nil => cases hmem
  | cons x xs ih =>
    by_cases hx : x.token = t.token
    · simp [recoverToken, saveToken, hx]
    · have hmem2 : t0 ∈ xs := by
        cases hmem with
        | head => exact absurd htok hx
        | tail _ h => exact h
      have := ih hmem2
      simpa [recoverToken, saveToken, hx] using this

/-- The caller's previously active workspace, a personal (`single`)
workspace owned by `plainUser`. -/
def wsOld : Workspace :=
  { id := "w-old", name := "WOld", avatar := "av-wold", single := true
    owner := plainUser, members := [plainUser]
    permissions := [("u-plain", defaultPermissions .OWNER)] }

/-- A payload fixture for session fixtures. -/
def msgFix : SignInMessage :=
  { address := "0xPlain", user_id := "u-plain", encoder := "fuel"
    provider := "net", createdAt := 0 }

/-- `plainUser`'s live session, bound to `wsOld`. -/
def plainToken : UserToken :=
  { token := "sig-plain", user := plainUser, workspace := some wsOld
    expired_at := 100, payload := msgFix }

/-- C3: evaluating `updateWorkspace` at the failing input. `plainUser` is
neither a member of `wsNoEntries` nor present in its permissions map, yet the
call returns a 200-class success response — built from the *old* workspace
`wsOld` — instead of rejecting with an error: the unqualified branch merely
skips the reassignment and proceeds to `token.save()` and the success
return. -/
theorem switch_workspace_unqualified_returns_success :
    updateWorkspace [wsNoEntries, wsOld] [plainToken] "w-1" "u-plain" =
      .ok ({ workspaceId := "w-old", workspaceName := "WOld"
             workspaceAvatar := "av-wold"
             workspacePermissions := some (defaultPermissions .OWNER)
             workspaceSingle := true, token := "sig-plain"
             avatar := "av-plain", address := "0xPlain" },
           [plainToken]) := by
  rfl

/-- C4: when the caller is neither a member of the target workspace nor holds
a permissions-map entry in it, and a session exists for the caller (with some
active workspace), `updateWorkspace` completes without any exception: it
returns a success value whose workspace summary is the *previously* active
workspace, and the stored session still recovers unchanged — its active
workspace field was not modified. -/
theorem switch_workspace_silent_noop (wdb : List Workspace) (st : TokenStore)
    (wid uid : String) (w oldWs : Workspace) (t : UserToken)
    (hw : (workspacesById wdb wid).head? = some w)
    (hmem : w.members.find? (fun m => m.id = uid) = none)
    (hperm : plookup w.permissions uid = none)
    (ht : findToken uid st = some t)
    (hws : t.workspace = some oldWs) :
    ∃ r st1, updateWorkspace wdb st wid uid = .ok (r, st1) ∧
      r.workspaceId = oldWs.id ∧
      r.workspaceName = oldWs.name ∧
      recoverToken t.token st1 = some t := by
  have hmem1 : (w.members.find? (fun m => m.id = uid)).isSome = false := by
    rw [hmem]; rfl
  have hperm1 : (plookup w.permissions uid).isSome = false := by
    rw [hperm]; rfl
  simp only [updateWorkspace, hw, ht, hmem1, hperm1, Bool.or_self,
    Bool.false_eq_true, if_false, hws]
  refine ⟨_, _, rfl, rfl, rfl, ?_⟩
  exact recoverToken_saveToken t t st (List.mem_of_find?_eq_some ht) rfl

/-- C4 (witness): `plainUser` attempts to switch to `wsNoEntries`. -/
theorem switch_workspace_silent_noop_witness :
    ∃ r st1,
      updateWorkspace [wsNoEntries, wsOld] [plainToken] "w-1" "u-plain" =
        .ok (r, st1) ∧
      r.workspaceId = wsOld.id ∧
      r.workspaceName = wsOld.name ∧
      recoverToken plainToken.token st1 = some plainToken :=
  switch_workspace_silent_noop [wsNoEntries, wsOld] [plainToken] "w-1"
    "u-plain" wsNoEntries wsOld plainToken (by decide) (by decide) (by decide)
    (by decide) (by decide)

/-- C10: with the target workspace present, `updateWorkspace` dereferences
the result of `findToken` without a null check. When no session is stored for
the caller the operation fails with the untyped `TypeError`
(`nullDerefToken`) raised by `token.workspace` / `token.save()` on an absent
value — not with any typed error; when a live session exists, that failure is
unreachable. -/
theorem switch_workspace_token_null_deref (wdb : List Workspace)
    (st : TokenStore) (wid uid : String) (w : Workspace)
    (hw : (workspacesById wdb wid).head? = some w) :
    (findToken uid st = none →
      updateWorkspace wdb st wid uid = .error .nullDerefToken) ∧
    (∀ t, findToken uid st = some t →
      updateWorkspace wdb st wid uid ≠ .error .nullDerefToken) := by
  constructor
  · intro hnone
    simp [updateWorkspace, hw, hnone]
  · intro t ht
    simp only [updateWorkspace, hw, ht]
    split
    · simp
    · simp

/-- C10 (witness): an empty session store and the workspace `wsNoEntries`. -/
theorem switch_workspace_token_null_deref_witness :
    updateWorkspace [wsNoEntries] [] "w-1" "u-plain" =
      .error .nullDerefToken :=
  (switch_workspace_token_null_deref [wsNoEntries] [] "w-1" "u-plain"
    wsNoEntries (by decide)).1 (by decide)

/-! ## C2 / C5 / C6 — sign-in -/

/-- Inversion on a successful `signIn`: the issued token carries the body's
signature as token value, belongs to the requested user, expires at
`createdAt` plus the configured TTL (default 15), and the updated store is
the new token in front of a remainder drawn from the old store from which,
when an existing token for the user was found, every session of that user
has been signed out. -/
theorem signIn_inv {env : Option Int}
    {verify : SignInMessage → String → String → Bool}
    {users : List User} {wdb : List Workspace} {b : SignInBody}
    {st st1 : TokenStore} {tok : UserToken}
    (h : signIn env verify users wdb b st = .ok (tok, st1)) :
    tok.token = b.signature ∧
    tok.user.id = b.user_id ∧
    tok.expired_at = b.createdAt + env.getD 15 ∧
    tok.payload = payloadWithoutSignature b ∧
    ∃ pre, st1 = tok :: pre ∧
      ∀ t ∈ pre, t ∈ st ∧
        ∀ e, findToken b.user_id st = some e → ¬ t.user.id = e.user.id := by
  simp only [signIn] at h
  split at h
  · cases h
  · split at h
    · cases h
    · next user huser =>
      rw [Except.ok.injEq, Prod.mk.injEq] at h
      obtain ⟨htok, hst⟩ := h
      subst htok
      refine ⟨rfl, ?_, rfl, rfl, ?_⟩
      · have huser2 : users.find? (fun u => u.id = b.user_id) = some user :=
          huser
        show user.id = b.user_id
        have h3 := List.find?_some huser2
        exact of_decide_eq_true h3
      · refine ⟨_, hst.symm, ?_⟩
        intro t htmem
        cases hft : findToken b.user_id st with
        | none =>
          rw [hft] at htmem
          exact ⟨htmem, by intro e he; cases he⟩
        | some e0 =>
          rw [hft] at htmem
          have hmf := List.mem_filter.mp htmem
          refine ⟨hmf.1, ?_⟩
          intro e he
          cases he
          simpa using hmf.2

/-- C2: issuing a second session for the same user invalidates the first.
After `signIn` for user `u` with signature `s1` and then a second `signIn`
for `u` with a different signature `s2` (`s1` not occurring as a token value
elsewhere in the store), the first credential no longer resolves through
`recoverToken`, and the new token is the *only* session held for `u` — the
single-live-session-per-user policy. -/
theorem second_sign_in_invalidates_first (env1 env2 : Option Int)
    (verify : SignInMessage → String → String → Bool)
    (users : List User) (wdb : List Workspace) (b1 b2 : SignInBody)
    (st st1 st2 : TokenStore) (tok1 tok2 : UserToken)
    (huser : b2.user_id = b1.user_id)
    (hsig : ¬ b1.signature = b2.signature)
    (hfresh : ∀ t ∈ st, ¬ t.token = b1.signature)
    (h1 : signIn env1 verify users wdb b1 st = .ok (tok1, st1))
    (h2 : signIn env2 verify users wdb b2 st1 = .ok (tok2, st2)) :
    recoverToken b1.signature st2 = none ∧
    ∀ t ∈ st2, t.user.id = b1.user_id → t = tok2 := by
  obtain ⟨htok1, hid1, -, -, pre1, hst1, hpre1⟩ := signIn_inv h1
  obtain ⟨htok2, -, -, -, pre2, hst2, hpre2⟩ := signIn_inv h2
  have hfind : findToken b2.user_id st1 = some tok1 := by
    rw [hst1]
    show (tok1 :: pre1).find? (fun t => t.user.id = b2.user_id) = some tok1
    apply List.find?_cons_of_pos
    simp [hid1, huser]
  have hnotfirst : ∀ t ∈ pre2, ¬ t.user.id = tok1.user.id := by
    intro t htmem
    exact ((hpre2 t htmem).2 tok1 hfind)
  constructor
  · rw [hst2]
    show (tok2 :: pre2).find? (fun t => t.token = b1.signature) = none
    rw [List.find?_eq_none]
    intro t htmem
    simp only [decide_eq_true_eq]
    rcases List.mem_cons.mp htmem with heq | htail
    · subst heq
      rw [htok2]
      intro hcontra
      exact hsig hcontra.symm
    · have hmem1 : t ∈ st1 := (hpre2 t htail).1
      rw [hst1] at hmem1
      rcases List.mem_cons.mp hmem1 with heq1 | htail1
      · subst heq1
        exact absurd rfl (hnotfirst t htail)
      · exact hfresh t (hpre1 t htail1).1
  · intro t htmem hid
    rw [hst2] at htmem
    rcases List.mem_cons.mp htmem with heq | htail
    · exact heq
    · exact absurd (hid.trans hid1.symm) (hnotfirst t htail)

/-- First sign-in body of the `plainUser` fixtures. -/
def bodyFix1 : SignInBody :=
  { address := "0xPlain", user_id := "u-plain", encoder := "fuel"
    provider := "net", createdAt := 0, signature := "sig-1"
    workspace_id := none }

/-- Second sign-in body: same user, different signature. -/
def bodyFix2 : SignInBody := { bodyFix1 with signature := "sig-2" }

/-- Token issued by the first fixture sign-in. -/
def tokFix1 : UserToken :=
  { token := "sig-1", user := plainUser, workspace := none
    expired_at := 15, payload := msgFix }

/-- Token issued by the second fixture sign-in. -/
def tokFix2 : UserToken := { tokFix1 with token := "sig-2" }

/-- C2 (witness): two consecutive sign-ins of `plainUser` from the empty
store; the first credential fails to recover and the second token is the
unique session. -/
theorem second_sign_in_invalidates_first_witness :
    recoverToken "sig-1" [tokFix2] = none ∧
    ∀ t ∈ [tokFix2], t.user.id = "u-plain" → t = tokFix2 :=
  second_sign_in_invalidates_first none none (fun _ _ _ => true) [plainUser]
    [] bodyFix1 bodyFix2 [] [tokFix1] [tokFix2] tokFix1 tokFix2 rfl
    (by decide) (by simp) rfl rfl

/-- C5: a successful sign-in issues a session whose expiry is the
client-asserted `createdAt` plus the configured TTL in minutes — the value of
`TOKEN_EXPIRATION_TIME`, defaulting to 15 when the variable is unset — with
no reference to server receipt time. -/
theorem sign_in_expiry_from_created_at (env : Option Int)
    (verify : SignInMessage → String → String → Bool)
    (users : List User) (wdb : List Workspace) (b : SignInBody)
    (st : TokenStore) (tok : UserToken) (st1 : TokenStore)
    (h : signIn env verify users wdb b st = .ok (tok, st1)) :
    tok.expired_at = b.createdAt + env.getD 15 :=
  (signIn_inv h).2.2.1

/-- C5 (witness): the fixture sign-in with `createdAt = 0` and the TTL
configuration unset expires at minute 15. -/
theorem sign_in_expiry_from_created_at_witness :
    tokFix1.expired_at = bodyFix1.createdAt + (none : Option Int).getD 15 :=
  sign_in_expiry_from_created_at none (fun _ _ _ => true) [plainUser] []
    bodyFix1 [] tokFix1 [tokFix1] rfl

/-- A sign-in body carrying one target workspace id. -/
def bodyWsA : SignInBody := { bodyFix1 with workspace_id := some "w-a" }

/-- The same body with a different target workspace id. -/
def bodyWsB : SignInBody := { bodyFix1 with workspace_id := some "w-b" }

/-- C6 (counterexample): `workspace_id` is *not* part of the signed message.
The destructuring in `signIn` removes `workspace_id` together with
`signature`, so two bodies that differ only in `workspace_id` produce
byte-identical verified messages — while the spec-side message (payload
excluding only the signature) distinguishes them. -/
theorem workspace_id_not_signed :
    payloadWithoutSignature bodyWsA = payloadWithoutSignature bodyWsB ∧
    ¬ bodyWsA.workspace_id = bodyWsB.workspace_id ∧
    ¬ specSignedMessage bodyWsA = specSignedMessage bodyWsB := by
  decide

/-- C6 (amended): the message whose signature is verified is the canonical
serialization of the body excluding both the `signature` field and
`workspace_id`; the remaining fields (`address`, `user_id`, `encoder`,
`provider`, `createdAt`) are exactly the signed content — two bodies yield
the same verified message precisely when they agree on all of them. -/
theorem signed_message_excludes_workspace_id (b1 b2 : SignInBody) :
    payloadWithoutSignature b1 = payloadWithoutSignature b2 ↔
      (b1.address = b2.address ∧ b1.user_id = b2.user_id ∧
       b1.encoder = b2.encoder ∧ b1.provider = b2.provider ∧
       b1.createdAt = b2.createdAt) := by
  simp [payloadWithoutSignature, SignInMessage.mk.injEq]

end BakoSafe
